import Mathlib

/-!
Verification of the telford-community-board token lifecycle and
credential-verification engine.

The development shallowly embeds the JavaScript source:
* `src/server/config/jwt.js` — token codec and issuer (`generateToken`,
  `verifyToken`, `getSecretByType`, `getExpiryByType`, `generateAuthTokens`);
* `src/server/middleware/auth.js` — auth decision engine (`authenticate`,
  `authorize`, `optionalAuth`, `verifyRefreshToken`);
* the Sequelize `User` model — password hooks (`beforeCreate`, `beforeUpdate`,
  `hashPassword`);
* the rate-limit middleware — `RATE_LIMIT_CONFIG`, the three limiters and
  `skipRateLimit`.

JWT strings are represented symbolically: a well-formed signed token is the
pair of its payload claims and the secret that signed it, and any other string
is `Token.malformed`.  `jwtVerify` models the `jsonwebtoken` library: the
signature is valid exactly when the verifying secret equals the signing
secret; after the signature check the library rejects with
`TokenExpiredError` when the clock has reached the embedded `exp`, and any
signature or structure failure is a `JsonWebTokenError`.  Time is a natural
number of seconds (JWT `iat`/`exp` are seconds).
-/

namespace TelfordAuth

/-- Payload claims carried inside a signed token: the subject claims
(`userId`, `email`, `role`) that `generateAuthTokens` supplies, plus the
`tokenType` and `iat` stamped on by `generateToken` (jwt.js lines 37-41) and
the `exp` added by `jwt.sign` from the `expiresIn` option. -/
structure TokenClaims where
  userId : Nat
  email : String
  role : String
  tokenType : String
  iat : Nat
  exp : Nat
  deriving Repr, DecidableEq

/-- Symbolic JWT string: either a token produced by `jwt.sign` (its claims
together with the signing secret) or any other string, which fails signature
or structural validation. -/
inductive Token where
  | signed (claims : TokenClaims) (secret : String)
  | malformed (raw : String)
  deriving Repr, DecidableEq

/-- Errors thrown by the codec layer.  `configError` is the
`Error('JWT secret not configured for token type: ...')` thrown by
`getSecretByType`; the other two model the `jsonwebtoken` library's
`TokenExpiredError` and `JsonWebTokenError`, which the middleware
distinguishes by `error.name`. -/
inductive JwtError where
  | configError (tokenType : String)
  | tokenExpiredError
  | jsonWebTokenError
  deriving Repr, DecidableEq

/-- Model of `jwt.verify(token, secret)`: signature first (valid iff the
secrets agree), then expiry (`TokenExpiredError` when the clock has reached
`exp`).  The decoded payload is returned unchanged — the library never
inspects the `tokenType` claim. -/
def jwtVerify (now : Nat) (token : Token) (secret : String) : Except JwtError TokenClaims :=
  match token with
  | .malformed _ => .error .jsonWebTokenError
  | .signed claims sig =>
    if sig ≠ secret then .error .jsonWebTokenError
    else if claims.exp ≤ now then .error .tokenExpiredError
    else .ok claims

/-- The JWT-relevant environment variables.  `none` models an unset (or
empty, hence JS-falsy) variable. -/
structure Env where
  JWT_ACCESS_SECRET : Option String
  JWT_REFRESH_SECRET : Option String
  JWT_RESET_SECRET : Option String
  JWT_SECRET : Option String
  deriving Repr, DecidableEq

/-- `getSecretByType` (jwt.js lines 71-83): a lookup table with entries for
exactly the three known token types, each `||`-falling back to the shared
`JWT_SECRET`; `secrets[type]` is `undefined` for any other type, and the
final `if (!secret) throw` raises the configuration error. -/
def getSecretByType (env : Env) (type : String) : Except JwtError String :=
  let secrets : String → Option String := fun t =>
    if t = "access" then env.JWT_ACCESS_SECRET.orElse (fun _ => env.JWT_SECRET)
    else if t = "refresh" then env.JWT_REFRESH_SECRET.orElse (fun _ => env.JWT_SECRET)
    else if t = "reset" then env.JWT_RESET_SECRET.orElse (fun _ => env.JWT_SECRET)
    else none
  match secrets type with
  | some secret => .ok secret
  | none => .error (.configError type)

/-- `getExpiryByType` (jwt.js lines 90-98): expiry strings per type with the
access expiry as fallback for unknown types. -/
def getExpiryByType (type : String) : String :=
  if type = "access" then "15m"
  else if type = "refresh" then "7d"
  else if type = "reset" then "1h"
  else "15m"

/-- Seconds denoted by the duration strings the configuration uses (the
conversion the `jsonwebtoken` `expiresIn` option performs). -/
def expiryToSeconds (s : String) : Nat :=
  if s = "15m" then 15 * 60
  else if s = "7d" then 7 * 24 * 60 * 60
  else if s = "1h" then 60 * 60
  else 0

/-- Subject claims passed to `generateToken` by `generateAuthTokens`
(jwt.js lines 106-110). -/
structure Payload where
  userId : Nat
  email : String
  role : String
  deriving Repr, DecidableEq

/-- `generateToken` (jwt.js lines 32-44): resolves the secret for the type
(propagating the configuration error), spreads the payload, adds `tokenType`
and `iat`, and signs with the per-type expiry. -/
def generateToken (env : Env) (now : Nat) (payload : Payload) (type : String) :
    Except JwtError Token :=
  match getSecretByType env type with
  | .error e => .error e
  | .ok secret =>
    .ok (.signed
      { userId := payload.userId, email := payload.email, role := payload.role,
        tokenType := type, iat := now,
        exp := now + expiryToSeconds (getExpiryByType type) } secret)

/-- `verifyToken` (jwt.js lines 52-55): resolves the secret for the expected
type and calls `jwt.verify` — nothing else.  In particular it never looks at
the decoded `tokenType` claim. -/
def verifyToken (env : Env) (now : Nat) (token : Token) (type : String) :
    Except JwtError TokenClaims :=
  match getSecretByType env type with
  | .error e => .error e
  | .ok secret => jwtVerify now token secret

/-- The user object `generateAuthTokens` receives (`user.id`, `user.email`,
`user.role`); the middleware attaches the same shape as `req.user`. -/
structure AuthUser where
  id : Nat
  email : String
  role : String
  deriving Repr, DecidableEq

/-- Result object of `generateAuthTokens` (jwt.js lines 115-120). -/
structure AuthTokens where
  accessToken : Token
  refreshToken : Token
  accessTokenExpiry : String
  refreshTokenExpiry : String
  deriving Repr, DecidableEq

/-- `generateAuthTokens` (jwt.js lines 105-121): builds one payload from the
user and signs it twice, once per type. -/
def generateAuthTokens (env : Env) (now : Nat) (user : AuthUser) :
    Except JwtError AuthTokens :=
  let payload : Payload := { userId := user.id, email := user.email, role := user.role }
  match generateToken env now payload "access" with
  | .error e => .error e
  | .ok accessToken =>
    match generateToken env now payload "refresh" with
    | .error e => .error e
    | .ok refreshToken =>
      .ok { accessToken := accessToken, refreshToken := refreshToken,
            accessTokenExpiry := "15m", refreshTokenExpiry := "7d" }

/-- Environment with only the shared secret configured. -/
def envSharedOnly (s : String) : Env :=
  { JWT_ACCESS_SECRET := none, JWT_REFRESH_SECRET := none,
    JWT_RESET_SECRET := none, JWT_SECRET := some s }

/-- Environment with no secret configured at all. -/
def envNoSecrets : Env :=
  { JWT_ACCESS_SECRET := none, JWT_REFRESH_SECRET := none,
    JWT_RESET_SECRET := none, JWT_SECRET := none }

/-- A sample payload used by witnesses. -/
def payloadW : Payload := { userId := 7, email := "a@b.c", role := "user" }

/-- The `Authorization` header of a request, when present: either a
well-formed `Bearer <token>` header carrying an (opaque) token string, or a
header that does not start with `Bearer ` and so fails the
`authHeader.startsWith('Bearer ')` test. -/
inductive AuthHeader where
  | bearer (token : Token)
  | nonBearer (raw : String)
  deriving Repr, DecidableEq

/-- Outcome of an Express middleware on one request: either it sends a
rejection response (`res.status(status).json({code, message, ...})`) or it
calls `next()` having attached `attached` to the request object. -/
inductive MwResult (α : Type) where
  | reject (status : Nat) (code : String) (message : String)
  | next (attached : α)
  deriving Repr, DecidableEq

/-- Outcome of the `authorize` middleware; its 403 rejection additionally
carries the `requiredRoles` and `userRole` response fields. -/
inductive AuthzResult where
  | reject (status : Nat) (code : String) (message : String)
      (requiredRoles : Option (List String)) (userRole : Option String)
  | next
  deriving Repr, DecidableEq

/-- `authenticate` (auth.js lines 14-70): no/non-`Bearer ` header rejects
NO_TOKEN(401); then `verifyToken(token, 'access')` inside `try`, whose
exceptions the `catch` maps by `error.name` — `TokenExpiredError` to
TOKEN_EXPIRED, `JsonWebTokenError` to MALFORMED_TOKEN, anything else (such
as the configuration error) to the INVALID_TOKEN default; a decoded token
whose `tokenType` is not `access` rejects INVALID_TOKEN_TYPE(401); otherwise
`req.user = {id, email, role}` is attached and `next()` runs. -/
def authenticate (env : Env) (now : Nat) (authHeader : Option AuthHeader) :
    MwResult AuthUser :=
  match authHeader with
  | none => .reject 401 "NO_TOKEN" "Access denied. No token provided."
  | some (.nonBearer _) => .reject 401 "NO_TOKEN" "Access denied. No token provided."
  | some (.bearer token) =>
    match verifyToken env now token "access" with
    | .ok decoded =>
      if decoded.tokenType ≠ "access" then
        .reject 401 "INVALID_TOKEN_TYPE" "Invalid token type."
      else
        .next { id := decoded.userId, email := decoded.email, role := decoded.role }
    | .error .tokenExpiredError =>
      .reject 401 "TOKEN_EXPIRED" "Token has expired. Please refresh your token."
    | .error .jsonWebTokenError =>
      .reject 401 "MALFORMED_TOKEN" "Invalid token."
    | .error (.configError _) =>
      .reject 401 "INVALID_TOKEN" "Invalid or expired token."

/-- `authorize(...allowedRoles)` (auth.js lines 76-98): missing `req.user`
rejects NOT_AUTHENTICATED(401); a role outside `allowedRoles` rejects
INSUFFICIENT_PERMISSIONS(403) carrying `requiredRoles` and `userRole`;
otherwise `next()`. -/
def authorize (allowedRoles : List String) (reqUser : Option AuthUser) : AuthzResult :=
  match reqUser with
  | none => .reject 401 "NOT_AUTHENTICATED" "User not authenticated." none none
  | some user =>
    if allowedRoles.contains user.role then .next
    else
      .reject 403 "INSUFFICIENT_PERMISSIONS"
        "You do not have permission to perform this action."
        (some allowedRoles) (some user.role)

/-- `optionalAuth` (auth.js lines 104-126): attaches `req.user` only when a
`Bearer ` header is present, `verifyToken` succeeds and the decoded
`tokenType` is `access`; every error is swallowed by the `catch` and
`next()` always runs, so no rejection response is ever sent. -/
def optionalAuth (env : Env) (now : Nat) (authHeader : Option AuthHeader) :
    MwResult (Option AuthUser) :=
  match authHeader with
  | some (.bearer token) =>
    match verifyToken env now token "access" with
    | .ok decoded =>
      if decoded.tokenType = "access" then
        .next (some { id := decoded.userId, email := decoded.email, role := decoded.role })
      else
        .next none
    | .error _ => .next none
  | _ => .next none

/-- `verifyRefreshToken` (auth.js lines 131-172): reads `refreshToken` from
`req.body` (not a header); a falsy value rejects NO_REFRESH_TOKEN(400);
`verifyToken(refreshToken, 'refresh')` errors map in the `catch` —
`TokenExpiredError` to REFRESH_TOKEN_EXPIRED, everything else to the
INVALID_REFRESH_TOKEN default; a decoded `tokenType` other than `refresh`
rejects INVALID_REFRESH_TOKEN(401) with the type-mismatch message; success
attaches `req.refreshTokenData = decoded`. -/
def verifyRefreshToken (env : Env) (now : Nat) (bodyRefreshToken : Option Token) :
    MwResult TokenClaims :=
  match bodyRefreshToken with
  | none => .reject 400 "NO_REFRESH_TOKEN" "Refresh token is required."
  | some token =>
    match verifyToken env now token "refresh" with
    | .ok decoded =>
      if decoded.tokenType ≠ "refresh" then
        .reject 401 "INVALID_REFRESH_TOKEN" "Invalid refresh token type."
      else
        .next decoded
    | .error .tokenExpiredError =>
      .reject 401 "REFRESH_TOKEN_EXPIRED" "Refresh token has expired. Please log in again."
    | .error .jsonWebTokenError =>
      .reject 401 "INVALID_REFRESH_TOKEN" "Invalid refresh token."
    | .error (.configError _) =>
      .reject 401 "INVALID_REFRESH_TOKEN" "Invalid refresh token."

/-- Value stored in the `User` model's `password` field: either a raw
(plaintext) string or the output of `bcrypt.hash(v, salt)` on some stored
value.  The two constructors are distinct, which models the fact that a
bcrypt digest (an algorithm-marker-prefixed 60-character string) is never
the plaintext it was computed from; the salt parameter models the randomness
drawn by `bcrypt.genSalt(10)`. -/
inductive PwVal where
  | raw (s : String)
  | bhash (salt : Nat) (v : PwVal)
  deriving Repr, DecidableEq

/-- JS truthiness of the `password` field used by `if (user.password)`:
`undefined`/`null` and the empty string are falsy; any other string (a
bcrypt digest is never empty) is truthy. -/
def truthyPw : Option PwVal → Bool
  | none => false
  | some (.raw s) => s != ""
  | some (.bhash _ _) => true

/-- JS truthiness of an optional string field (`if (!user.displayName)`). -/
def truthyStr : Option String → Bool
  | none => false
  | some s => s != ""

/-- The attributes of a `User` instance that the hooks read or write, plus
`email` standing in for the unrelated profile fields. -/
structure UserRecord where
  username : String
  email : String
  password : Option PwVal
  displayName : Option String
  role : String
  deriving Repr, DecidableEq

/-- `hashPassword` from the `User` model: `if (user.password)` guards the
hashing, so an absent or empty password is silently left untouched;
otherwise the field is replaced by `bcrypt.hash(user.password, salt)` with a
fresh salt. -/
def hashPassword (salt : Nat) (user : UserRecord) : UserRecord :=
  if truthyPw user.password then
    match user.password with
    | some v => { user with password := some (.bhash salt v) }
    | none => user
  else user

/-- The `beforeCreate` hook: always runs `hashPassword`, then defaults
`displayName` to `username` when falsy. -/
def beforeCreate (salt : Nat) (user : UserRecord) : UserRecord :=
  let user := hashPassword salt user
  if truthyStr user.displayName then user
  else { user with displayName := some user.username }

/-- The `beforeUpdate` hook: runs `hashPassword` exactly when
`user.changed('password')` is true. -/
def beforeUpdate (salt : Nat) (changedPassword : Bool) (user : UserRecord) : UserRecord :=
  if changedPassword then hashPassword salt user else user

/-- Fields assigned by an update call; `none` means the field is not
touched.  `email` stands in for the profile fields other than the
password. -/
structure UserUpdate where
  password : Option PwVal
  displayName : Option String
  email : Option String
  deriving Repr, DecidableEq

/-- Sequelize's `changed('password')`: true exactly when the update assigned
the password attribute a value different from the stored one. -/
def passwordChanged (upd : UserUpdate) (user : UserRecord) : Bool :=
  match upd.password with
  | none => false
  | some v => some v != user.password

/-- Assignment of the update's fields onto the instance (what happens before
the `beforeUpdate` hook fires). -/
def applyFields (upd : UserUpdate) (user : UserRecord) : UserRecord :=
  { user with
    password := match upd.password with
                | some v => some v
                | none => user.password,
    displayName := match upd.displayName with
                   | some d => some d
                   | none => user.displayName,
    email := match upd.email with
             | some e => e
             | none => user.email }

/-- An update call on a stored user: assign the fields, then run the
`beforeUpdate` hook with the changed-set Sequelize computed. -/
def updateUser (salt : Nat) (upd : UserUpdate) (user : UserRecord) : UserRecord :=
  beforeUpdate salt (passwordChanged upd user) (applyFields upd user)

/-- The request attributes the rate-limit middleware reads: client address,
path, and the identity a preceding `authenticate` may have attached. -/
structure RLRequest where
  ip : String
  path : String
  user : Option AuthUser
  deriving Repr, DecidableEq

/-- The JSON body a limiter sends when it blocks a request. -/
structure RLMessage where
  success : Bool
  message : String
  code : String
  deriving Repr, DecidableEq

/-- Options accepted by `express-rate-limit` as used here.  The repository's
three configs set only `windowMs`, `max`, `message`, `standardHeaders`,
`legacyHeaders` and (for auth) `skipSuccessfulRequests`; `skip` and
`keyGenerator` are left at the library defaults (`none` here: never skip,
key by client address). -/
structure RateLimitOptions where
  windowMs : Nat
  max : Nat
  message : RLMessage
  standardHeaders : Bool
  legacyHeaders : Bool
  skipSuccessfulRequests : Bool
  skip : Option (RLRequest → Bool)
  keyGenerator : Option (RLRequest → String)

/-- `RATE_LIMIT_CONFIG.general` (15 min window, 100 requests per IP). -/
def generalConfig : RateLimitOptions :=
  { windowMs := 15 * 60 * 1000, max := 100,
    message := { success := false,
                 message := "Too many requests from this IP, please try again later.",
                 code := "RATE_LIMIT_EXCEEDED" },
    standardHeaders := true, legacyHeaders := false,
    skipSuccessfulRequests := false, skip := none, keyGenerator := none }

/-- `RATE_LIMIT_CONFIG.auth` (15 min window, 5 attempts per IP, successful
requests not counted). -/
def authConfig : RateLimitOptions :=
  { windowMs := 15 * 60 * 1000, max := 5,
    message := { success := false,
                 message := "Too many login attempts, please try again later.",
                 code := "LOGIN_RATE_LIMIT_EXCEEDED" },
    standardHeaders := true, legacyHeaders := false,
    skipSuccessfulRequests := true, skip := none, keyGenerator := none }

/-- `RATE_LIMIT_CONFIG.passwordReset` (1 h window, 3 attempts per IP). -/
def passwordResetConfig : RateLimitOptions :=
  { windowMs := 60 * 60 * 1000, max := 3,
    message := { success := false,
                 message := "Too many password reset attempts, please try again later.",
                 code := "PASSWORD_RESET_LIMIT_EXCEEDED" },
    standardHeaders := true, legacyHeaders := false,
    skipSuccessfulRequests := false, skip := none, keyGenerator := none }

/-- `userRateLimiter(maxRequests, windowMs)`: per-user bucketing when an
identity is attached, per-IP otherwise. -/
def userRateLimiter (maxRequests windowMs : Nat) : RateLimitOptions :=
  { windowMs := windowMs, max := maxRequests,
    message := { success := false,
                 message := "You have made too many requests. Please try again later.",
                 code := "USER_RATE_LIMIT_EXCEEDED" },
    standardHeaders := true, legacyHeaders := false,
    skipSuccessfulRequests := false, skip := none,
    keyGenerator := some (fun req =>
      match req.user with
      | some u => "user:" ++ toString u.id
      | none => req.ip) }

/-- `skipRateLimit` from the rate-limit middleware: true for an attached
admin identity and for the fixed allow-list of operational paths.  Note it
is only exported — none of the three limiter configs above references it. -/
def skipRateLimit (req : RLRequest) : Bool :=
  (match req.user with
   | some u => u.role == "admin"
   | none => false)
  || ["/api/health", "/api/docs"].contains req.path

/-- One key's counter in the limiter's windowed store. -/
structure RLEntry where
  key : String
  windowStart : Nat
  hits : Nat
  deriving Repr, DecidableEq

/-- The limiter's store: one entry per key. -/
abbrev RLState := List RLEntry

/-- Key selection: the configured `keyGenerator`, defaulting to the client
address. -/
def rlKey (opts : RateLimitOptions) (req : RLRequest) : String :=
  match opts.keyGenerator with
  | some kg => kg req
  | none => req.ip

/-- Store lookup by key. -/
def findEntry (st : RLState) (key : String) : Option RLEntry :=
  st.find? (fun e => e.key == key)

/-- Store write-back of one key's entry. -/
def setEntry (st : RLState) (e : RLEntry) : RLState :=
  match st with
  | [] => [e]
  | e0 :: rest => if e0.key == e.key then e :: rest else e0 :: setEntry rest e

/-- Model of the `express-rate-limit` middleware on one request: unless the
configured `skip` predicate accepts the request, the key's windowed counter
is incremented (restarting once the window has elapsed) and the request is
blocked with the configured message when the hit count exceeds `max`;
with `skipSuccessfulRequests`, a request whose response succeeds is not
retained in the count.  `some msg` in the first component is the block
response, `none` lets the request through. -/
def limiterStep (opts : RateLimitOptions) (now : Nat) (req : RLRequest)
    (respOk : Bool) (st : RLState) : Option RLMessage × RLState :=
  if (opts.skip.getD (fun _ => false)) req then (none, st)
  else
    let key := rlKey opts req
    let entry : RLEntry :=
      match findEntry st key with
      | some e =>
        if e.windowStart + opts.windowMs ≤ now then
          { key := key, windowStart := now, hits := 1 }
        else
          { e with hits := e.hits + 1 }
      | none => { key := key, windowStart := now, hits := 1 }
    if opts.max < entry.hits then
      (some opts.message, setEntry st entry)
    else
      let entry :=
        if opts.skipSuccessfulRequests && respOk then
          { entry with hits := entry.hits - 1 }
        else entry
      (none, setEntry st entry)

/-- A whole request trace through one limiter: each element is the request
time, the request, and whether its response succeeded. -/
def runLimiter (opts : RateLimitOptions) :
    List (Nat × RLRequest × Bool) → RLState → List (Option RLMessage) × RLState
  | [], st => ([], st)
  | (now, req, respOk) :: rest, st =>
    let step := limiterStep opts now req respOk st
    let tail := runLimiter opts rest step.2
    (step.1 :: tail.1, tail.2)

/-- A request from an authenticated admin aimed at the login endpoint. -/
def adminLoginReq : RLRequest :=
  { ip := "10.0.0.1", path := "/api/auth/login",
    user := some { id := 1, email := "root@x.y", role := "admin" } }

/-- Claim C10: for any token type outside the closed enumeration
{access, refresh, reset}, both signing and verifying fail with the
missing-secret configuration error even when the shared `JWT_SECRET` (or any
type-specific secret) is configured, because the lookup table in
`getSecretByType` has entries only for the three known types, and the
shared-secret fallback lives inside those three entries. -/
theorem C10_unknown_type_config_error (env : Env) (now : Nat) (payload : Payload)
    (token : Token) (type : String)
    (ha : type ≠ "access") (hr : type ≠ "refresh") (hs : type ≠ "reset") :
    generateToken env now payload type = .error (.configError type) ∧
    verifyToken env now token type = .error (.configError type) := by
  unfold generateToken verifyToken getSecretByType
  simp [ha, hr, hs]

/-- Witness for C10 at the unknown type "session" with the shared secret set. -/
theorem C10_witness :
    generateToken (envSharedOnly "shared") 0 payloadW "session" =
      .error (.configError "session") ∧
    verifyToken (envSharedOnly "shared") 0 (.malformed "x") "session" =
      .error (.configError "session") :=
  C10_unknown_type_config_error (envSharedOnly "shared") 0 payloadW (.malformed "x")
    "session" (by decide) (by decide) (by decide)

/-- Counterexample to claim C5: with no secret configured, the configuration
error does surface on per-request sign and verify calls — `getSecretByType`
throws lazily inside `generateToken`/`verifyToken`, and nothing in the
repository validates secrets at startup — contradicting the claim that it
aborts process startup and never surfaces on a per-request call. -/
theorem C5_counterexample :
    generateToken envNoSecrets 0 payloadW "access" = .error (.configError "access") ∧
    verifyToken envNoSecrets 0 (.malformed "x") "refresh" =
      .error (.configError "refresh") := by
  constructor <;> rfl

/-- Claim C5 (amended): when no secret is resolvable for a token type, the
configuration error is raised by the sign or verify call itself, at request
time (the code performs no startup secret validation); for a type whose
secret does resolve, sign and verify never raise the configuration error. -/
theorem C5_config_error_is_per_call (env : Env) (now : Nat) (payload : Payload)
    (token : Token) (type : String) :
    (getSecretByType env type = .error (.configError type) →
      generateToken env now payload type = .error (.configError type) ∧
      verifyToken env now token type = .error (.configError type)) ∧
    (∀ secret, getSecretByType env type = .ok secret →
      (∀ t, generateToken env now payload type ≠ .error (.configError t)) ∧
      (∀ t, verifyToken env now token type ≠ .error (.configError t))) := by
  constructor
  · intro h
    unfold generateToken verifyToken
    rw [h]
    exact ⟨rfl, rfl⟩
  · intro secret h
    unfold generateToken verifyToken
    rw [h]
    constructor
    · intro t
      simp
    · intro t
      unfold jwtVerify
      match token with
      | .malformed _ => simp
      | .signed claims sig =>
        by_cases hsig : sig ≠ secret
        · simp [hsig]
        · by_cases hexp : claims.exp ≤ now
          · simp [hsig, hexp]
          · simp [hsig, hexp]

/-- Witness for C5: unresolvable secret errors at call time; the
well-configured access type never yields the configuration error. -/
theorem C5_witness :
    generateToken envNoSecrets 0 payloadW "refresh" = .error (.configError "refresh") ∧
    verifyToken (envSharedOnly "k") 0 (.malformed "x") "access" ≠
      .error (.configError "access") :=
  ⟨((C5_config_error_is_per_call envNoSecrets 0 payloadW (.malformed "x") "refresh").1
      rfl).1,
   (((C5_config_error_is_per_call (envSharedOnly "k") 0 payloadW (.malformed "x")
      "access").2 "k" rfl).2 "access")⟩

/-- Helper: a signed token whose secret matches the one resolved for the
expected type, and whose expiry lies in the future, verifies successfully and
returns the claims unchanged — whatever the embedded `tokenType` is. -/
theorem verifyToken_ok (env : Env) (now : Nat) (claims : TokenClaims)
    (secret type : String) (h : getSecretByType env type = .ok secret)
    (hlt : now < claims.exp) :
    verifyToken env now (.signed claims secret) type = .ok claims := by
  simp [verifyToken, h, jwtVerify, Nat.not_le.mpr hlt]

/-- Helper: a signed token past its expiry fails with the library's
expiry error when the signature matches. -/
theorem verifyToken_expired (env : Env) (now : Nat) (claims : TokenClaims)
    (secret type : String) (h : getSecretByType env type = .ok secret)
    (hexp : claims.exp ≤ now) :
    verifyToken env now (.signed claims secret) type = .error .tokenExpiredError := by
  simp [verifyToken, h, jwtVerify, hexp]

/-- Helper: a token signed with a different secret fails signature
validation. -/
theorem verifyToken_badsig (env : Env) (now : Nat) (claims : TokenClaims)
    (sig secret type : String) (h : getSecretByType env type = .ok secret)
    (hne : sig ≠ secret) :
    verifyToken env now (.signed claims sig) type = .error .jsonWebTokenError := by
  simp [verifyToken, h, jwtVerify, hne]

/-- Helper: a structurally corrupt token fails validation. -/
theorem verifyToken_malformed (env : Env) (now : Nat) (raw : String)
    (secret type : String) (h : getSecretByType env type = .ok secret) :
    verifyToken env now (.malformed raw) type = .error .jsonWebTokenError := by
  simp [verifyToken, h, jwtVerify]

/-- Claim C1: token type is enforced in two layers.  `verifyToken` checks
only signature and expiry — it succeeds and returns the claims whatever the
decoded `tokenType` is (first conjunct) — while the refresh entry point
additionally asserts the decoded type.  Hence, with all types resolving to
the same shared secret, a token generated with type `access` passes the bare
`verifyToken(·, 'refresh')` signature check yet is rejected by
`verifyRefreshToken`'s token-type assertion (the refresh path's
InvalidTokenType rejection: status 401, code INVALID_REFRESH_TOKEN, message
"Invalid refresh token type."). -/
theorem C1_two_layer_type_enforcement :
    (∀ (env : Env) (now : Nat) (claims : TokenClaims) (secret type : String),
      getSecretByType env type = .ok secret → now < claims.exp →
      verifyToken env now (.signed claims secret) type = .ok claims) ∧
    (∀ (s email role : String) (uid now dt : Nat), dt < 900 →
      generateToken (envSharedOnly s) now
          { userId := uid, email := email, role := role } "access" =
        .ok (.signed { userId := uid, email := email, role := role,
                       tokenType := "access", iat := now, exp := now + 900 } s) ∧
      verifyToken (envSharedOnly s) (now + dt)
          (.signed { userId := uid, email := email, role := role,
                     tokenType := "access", iat := now, exp := now + 900 } s) "refresh" =
        .ok { userId := uid, email := email, role := role,
              tokenType := "access", iat := now, exp := now + 900 } ∧
      verifyRefreshToken (envSharedOnly s) (now + dt)
          (some (.signed { userId := uid, email := email, role := role,
                           tokenType := "access", iat := now, exp := now + 900 } s)) =
        .reject 401 "INVALID_REFRESH_TOKEN" "Invalid refresh token type.") := by
  refine ⟨verifyToken_ok, ?_⟩
  intro s email role uid now dt hdt
  have hsec : getSecretByType (envSharedOnly s) "refresh" = .ok s := rfl
  have hv := verifyToken_ok (envSharedOnly s) (now + dt)
    { userId := uid, email := email, role := role,
      tokenType := "access", iat := now, exp := now + 900 } s "refresh" hsec
    (by show now + dt < now + 900; omega)
  refine ⟨rfl, hv, ?_⟩
  simp [verifyRefreshToken, hv]

/-- Witness for C1: a shared-secret environment, an access token minted at
time 5, presented to the refresh verification entry point at time 5. -/
theorem C1_witness :
    verifyToken (envSharedOnly "k") 5
        (.signed { userId := 7, email := "a@b.c", role := "user",
                   tokenType := "access", iat := 5, exp := 905 } "k") "refresh" =
      .ok { userId := 7, email := "a@b.c", role := "user",
            tokenType := "access", iat := 5, exp := 905 } ∧
    verifyRefreshToken (envSharedOnly "k") 5
        (some (.signed { userId := 7, email := "a@b.c", role := "user",
                         tokenType := "access", iat := 5, exp := 905 } "k")) =
      .reject 401 "INVALID_REFRESH_TOKEN" "Invalid refresh token type." :=
  ⟨(C1_two_layer_type_enforcement.2 "k" "a@b.c" "user" 7 5 0 (by decide)).2.1,
   (C1_two_layer_type_enforcement.2 "k" "a@b.c" "user" 7 5 0 (by decide)).2.2⟩

/-- Claim C2: the complete access-token authentication mapping.  Mandatory
authentication rejects NO_TOKEN(401) without a `Bearer ` header,
TOKEN_EXPIRED(401) on an expired token, MALFORMED_TOKEN(401) on a corrupt or
wrongly-signed token, INVALID_TOKEN_TYPE(401) on a valid token of the wrong
type, and attaches `{userId, email, role}` (as `req.user = {id, email,
role}`) on a valid access token; optional authentication proceeds
identity-less in every error case and never sends a rejection response. -/
theorem C2_authenticate_mapping (env : Env) (now : Nat) :
    (authenticate env now none =
        .reject 401 "NO_TOKEN" "Access denied. No token provided." ∧
      optionalAuth env now none = .next none) ∧
    (∀ raw : String,
      authenticate env now (some (.nonBearer raw)) =
        .reject 401 "NO_TOKEN" "Access denied. No token provided." ∧
      optionalAuth env now (some (.nonBearer raw)) = .next none) ∧
    (∀ (claims : TokenClaims) (secret : String),
      getSecretByType env "access" = .ok secret → claims.exp ≤ now →
      authenticate env now (some (.bearer (.signed claims secret))) =
        .reject 401 "TOKEN_EXPIRED" "Token has expired. Please refresh your token." ∧
      optionalAuth env now (some (.bearer (.signed claims secret))) = .next none) ∧
    (∀ (raw secret : String),
      getSecretByType env "access" = .ok secret →
      authenticate env now (some (.bearer (.malformed raw))) =
        .reject 401 "MALFORMED_TOKEN" "Invalid token." ∧
      optionalAuth env now (some (.bearer (.malformed raw))) = .next none) ∧
    (∀ (claims : TokenClaims) (sig secret : String),
      getSecretByType env "access" = .ok secret → sig ≠ secret →
      authenticate env now (some (.bearer (.signed claims sig))) =
        .reject 401 "MALFORMED_TOKEN" "Invalid token." ∧
      optionalAuth env now (some (.bearer (.signed claims sig))) = .next none) ∧
    (∀ (claims : TokenClaims) (secret : String),
      getSecretByType env "access" = .ok secret → now < claims.exp →
      claims.tokenType ≠ "access" →
      authenticate env now (some (.bearer (.signed claims secret))) =
        .reject 401 "INVALID_TOKEN_TYPE" "Invalid token type.") ∧
    (∀ (claims : TokenClaims) (secret : String),
      getSecretByType env "access" = .ok secret → now < claims.exp →
      claims.tokenType = "access" →
      authenticate env now (some (.bearer (.signed claims secret))) =
        .next { id := claims.userId, email := claims.email, role := claims.role } ∧
      optionalAuth env now (some (.bearer (.signed claims secret))) =
        .next (some { id := claims.userId, email := claims.email, role := claims.role })) ∧
    (∀ h : Option AuthHeader, ∃ u, optionalAuth env now h = .next u) := by
  refine ⟨⟨rfl, rfl⟩, fun raw => ⟨rfl, rfl⟩, ?_, ?_, ?_, ?_, ?_, ?_⟩
  · intro claims secret h hexp
    have hv := verifyToken_expired env now claims secret "access" h hexp
    exact ⟨by simp [authenticate, hv], by simp [optionalAuth, hv]⟩
  · intro raw secret h
    have hv := verifyToken_malformed env now raw secret "access" h
    exact ⟨by simp [authenticate, hv], by simp [optionalAuth, hv]⟩
  · intro claims sig secret h hne
    have hv := verifyToken_badsig env now claims sig secret "access" h hne
    exact ⟨by simp [authenticate, hv], by simp [optionalAuth, hv]⟩
  · intro claims secret h hlt htype
    have hv := verifyToken_ok env now claims secret "access" h hlt
    simp [authenticate, hv, htype]
  · intro claims secret h hlt htype
    have hv := verifyToken_ok env now claims secret "access" h hlt
    exact ⟨by simp [authenticate, hv, htype], by simp [optionalAuth, hv, htype]⟩
  · intro h
    cases h with
    | none => exact ⟨none, rfl⟩
    | some hh =>
      cases hh with
      | nonBearer raw => exact ⟨none, rfl⟩
      | bearer tok =>
        cases hv : verifyToken env now tok "access" with
        | error e => exact ⟨none, by simp [optionalAuth, hv]⟩
        | ok decoded =>
          by_cases ht : decoded.tokenType = "access"
          · exact ⟨some { id := decoded.userId, email := decoded.email, role := decoded.role },
              by simp [optionalAuth, hv, ht]⟩
          · exact ⟨none, by simp [optionalAuth, hv, ht]⟩

/-- Witness for C2: an expired access token under a shared-secret
environment is rejected TOKEN_EXPIRED by mandatory authentication and
swallowed by optional authentication. -/
theorem C2_witness :
    authenticate (envSharedOnly "k") 5
        (some (.bearer (.signed { userId := 1, email := "a@b.c", role := "user",
                                  tokenType := "access", iat := 0, exp := 1 } "k"))) =
      .reject 401 "TOKEN_EXPIRED" "Token has expired. Please refresh your token." ∧
    optionalAuth (envSharedOnly "k") 5
        (some (.bearer (.signed { userId := 1, email := "a@b.c", role := "user",
                                  tokenType := "access", iat := 0, exp := 1 } "k"))) =
      .next none :=
  (C2_authenticate_mapping (envSharedOnly "k") 5).2.2.1
    { userId := 1, email := "a@b.c", role := "user",
      tokenType := "access", iat := 0, exp := 1 } "k" rfl (by decide)

/-- Claim C3: one call to the token issuer signs the same subject payload
into both tokens — identical `userId`, `email`, `role`, visible literally in
the two signed claim records — and verifying the issued access token with
expected type `access` before its expiry returns exactly those claims
(round-trip with the input identity). -/
theorem C3_issue_round_trip (env : Env) (now now2 : Nat) (user : AuthUser)
    (sA sR : String)
    (hA : getSecretByType env "access" = .ok sA)
    (hR : getSecretByType env "refresh" = .ok sR)
    (hlt : now2 < now + 900) :
    generateAuthTokens env now user =
      .ok { accessToken := .signed { userId := user.id, email := user.email,
                                     role := user.role, tokenType := "access",
                                     iat := now, exp := now + 900 } sA,
            refreshToken := .signed { userId := user.id, email := user.email,
                                      role := user.role, tokenType := "refresh",
                                      iat := now, exp := now + 604800 } sR,
            accessTokenExpiry := "15m", refreshTokenExpiry := "7d" } ∧
    verifyToken env now2
        (.signed { userId := user.id, email := user.email, role := user.role,
                   tokenType := "access", iat := now, exp := now + 900 } sA) "access" =
      .ok { userId := user.id, email := user.email, role := user.role,
            tokenType := "access", iat := now, exp := now + 900 } := by
  constructor
  · simp [generateAuthTokens, generateToken, hA, hR, getExpiryByType, expiryToSeconds]
  · exact verifyToken_ok env now2
      { userId := user.id, email := user.email, role := user.role,
        tokenType := "access", iat := now, exp := now + 900 } sA "access" hA hlt

/-- Witness for C3 at a concrete identity and shared-secret environment. -/
theorem C3_witness :
    generateAuthTokens (envSharedOnly "k") 0 { id := 3, email := "e@f.g", role := "admin" } =
      .ok { accessToken := .signed { userId := 3, email := "e@f.g", role := "admin",
                                     tokenType := "access", iat := 0, exp := 900 } "k",
            refreshToken := .signed { userId := 3, email := "e@f.g", role := "admin",
                                      tokenType := "refresh", iat := 0, exp := 604800 } "k",
            accessTokenExpiry := "15m", refreshTokenExpiry := "7d" } ∧
    verifyToken (envSharedOnly "k") 10
        (.signed { userId := 3, email := "e@f.g", role := "admin",
                   tokenType := "access", iat := 0, exp := 900 } "k") "access" =
      .ok { userId := 3, email := "e@f.g", role := "admin",
            tokenType := "access", iat := 0, exp := 900 } :=
  C3_issue_round_trip (envSharedOnly "k") 0 10
    { id := 3, email := "e@f.g", role := "admin" } "k" "k" rfl rfl (by decide)

/-- Claim C6: the refresh-token verification entry point reads the token
from the request body; absence rejects NO_REFRESH_TOKEN(400); an expired
refresh token rejects REFRESH_TOKEN_EXPIRED(401) with the "log in again"
message; a malformed, wrongly-signed or wrongly-typed token rejects
INVALID_REFRESH_TOKEN(401); a valid refresh-typed token attaches the decoded
claims and proceeds. -/
theorem C6_verify_refresh_mapping (env : Env) (now : Nat) :
    (verifyRefreshToken env now none =
      .reject 400 "NO_REFRESH_TOKEN" "Refresh token is required.") ∧
    (∀ (claims : TokenClaims) (secret : String),
      getSecretByType env "refresh" = .ok secret → claims.exp ≤ now →
      verifyRefreshToken env now (some (.signed claims secret)) =
        .reject 401 "REFRESH_TOKEN_EXPIRED"
          "Refresh token has expired. Please log in again.") ∧
    (∀ (raw secret : String),
      getSecretByType env "refresh" = .ok secret →
      verifyRefreshToken env now (some (.malformed raw)) =
        .reject 401 "INVALID_REFRESH_TOKEN" "Invalid refresh token.") ∧
    (∀ (claims : TokenClaims) (sig secret : String),
      getSecretByType env "refresh" = .ok secret → sig ≠ secret →
      verifyRefreshToken env now (some (.signed claims sig)) =
        .reject 401 "INVALID_REFRESH_TOKEN" "Invalid refresh token.") ∧
    (∀ (claims : TokenClaims) (secret : String),
      getSecretByType env "refresh" = .ok secret → now < claims.exp →
      claims.tokenType ≠ "refresh" →
      verifyRefreshToken env now (some (.signed claims secret)) =
        .reject 401 "INVALID_REFRESH_TOKEN" "Invalid refresh token type.") ∧
    (∀ (claims : TokenClaims) (secret : String),
      getSecretByType env "refresh" = .ok secret → now < claims.exp →
      claims.tokenType = "refresh" →
      verifyRefreshToken env now (some (.signed claims secret)) = .next claims) := by
  refine ⟨rfl, ?_, ?_, ?_, ?_, ?_⟩
  · intro claims secret h hexp
    simp [verifyRefreshToken, verifyToken_expired env now claims secret "refresh" h hexp]
  · intro raw secret h
    simp [verifyRefreshToken, verifyToken_malformed env now raw secret "refresh" h]
  · intro claims sig secret h hne
    simp [verifyRefreshToken, verifyToken_badsig env now claims sig secret "refresh" h hne]
  · intro claims secret h hlt htype
    simp [verifyRefreshToken, verifyToken_ok env now claims secret "refresh" h hlt, htype]
  · intro claims secret h hlt htype
    simp [verifyRefreshToken, verifyToken_ok env now claims secret "refresh" h hlt, htype]

/-- Witness for C6: a wrong-case concrete run — no body token gives the 400,
and an expired refresh token gives the 401 with the log-in-again message. -/
theorem C6_witness :
    verifyRefreshToken (envSharedOnly "k") 9 none =
      .reject 400 "NO_REFRESH_TOKEN" "Refresh token is required." ∧
    verifyRefreshToken (envSharedOnly "k") 9
        (some (.signed { userId := 1, email := "a@b.c", role := "user",
                         tokenType := "refresh", iat := 0, exp := 2 } "k")) =
      .reject 401 "REFRESH_TOKEN_EXPIRED"
        "Refresh token has expired. Please log in again." :=
  ⟨(C6_verify_refresh_mapping (envSharedOnly "k") 9).1,
   (C6_verify_refresh_mapping (envSharedOnly "k") 9).2.1
     { userId := 1, email := "a@b.c", role := "user",
       tokenType := "refresh", iat := 0, exp := 2 } "k" rfl (by decide)⟩

/-- Claim C7: the authorization check rejects NOT_AUTHENTICATED(401) without
an attached identity, rejects INSUFFICIENT_PERMISSIONS(403) — carrying the
required-roles set and the actual role — when the identity's role is outside
the allowed set (in particular a moderator gated to {admin} sees
requiredRoles = [admin], userRole = moderator), and proceeds otherwise. -/
theorem C7_authorize_mapping (allowedRoles : List String) :
    (authorize allowedRoles none =
      .reject 401 "NOT_AUTHENTICATED" "User not authenticated." none none) ∧
    (∀ u : AuthUser, allowedRoles.contains u.role = false →
      authorize allowedRoles (some u) =
        .reject 403 "INSUFFICIENT_PERMISSIONS"
          "You do not have permission to perform this action."
          (some allowedRoles) (some u.role)) ∧
    (∀ u : AuthUser, allowedRoles.contains u.role = true →
      authorize allowedRoles (some u) = .next) ∧
    (∀ (uid : Nat) (em : String),
      authorize ["admin"] (some { id := uid, email := em, role := "moderator" }) =
        .reject 403 "INSUFFICIENT_PERMISSIONS"
          "You do not have permission to perform this action."
          (some ["admin"]) (some "moderator")) := by
  refine ⟨rfl, ?_, ?_, ?_⟩
  · intro u h
    simp only [authorize, h]
    simp
  · intro u h
    simp only [authorize, h]
    simp
  · intro uid em
    rfl

/-- Witness for C7: a moderator identity gated to the {admin} role set. -/
theorem C7_witness :
    authorize ["admin"] (some { id := 2, email := "m@x.y", role := "moderator" }) =
      .reject 403 "INSUFFICIENT_PERMISSIONS"
        "You do not have permission to perform this action."
        (some ["admin"]) (some "moderator") :=
  (C7_authorize_mapping ["admin"]).2.1
    { id := 2, email := "m@x.y", role := "moderator" } (by decide)

/-- Claim C4: hashing fires exactly on password writes.  Creation replaces a
supplied non-empty plaintext by its hash — which never equals the plaintext —
before storage; an update that does not touch the password leaves the stored
value untouched; an update assigning a different password value rehashes; an
update assigning the identical value is not marked changed and stores the
value as is. -/
theorem C4_hash_only_on_password_write (salt : Nat) (user : UserRecord) :
    (∀ p : String, user.password = some (.raw p) → p ≠ "" →
      (beforeCreate salt user).password = some (.bhash salt (.raw p)) ∧
      (beforeCreate salt user).password ≠ some (.raw p)) ∧
    (∀ upd : UserUpdate, upd.password = none →
      (updateUser salt upd user).password = user.password) ∧
    (∀ (upd : UserUpdate) (v : PwVal), upd.password = some v →
      some v ≠ user.password → truthyPw (some v) = true →
      (updateUser salt upd user).password = some (.bhash salt v)) ∧
    (∀ (upd : UserUpdate) (v : PwVal), upd.password = some v →
      some v = user.password →
      (updateUser salt upd user).password = user.password) := by
  refine ⟨?_, ?_, ?_, ?_⟩
  · intro p hp hne
    have hbc : (beforeCreate salt user).password = (hashPassword salt user).password := by
      simp only [beforeCreate]
      split <;> rfl
    have hhp : (hashPassword salt user).password = some (.bhash salt (.raw p)) := by
      simp [hashPassword, hp, truthyPw, hne]
    rw [hbc, hhp]
    exact ⟨rfl, by simp⟩
  · intro upd h
    simp [updateUser, beforeUpdate, passwordChanged, applyFields, h]
  · intro upd v h hne htr
    have hch : passwordChanged upd user = true := by
      simp [passwordChanged, h, hne]
    simp [updateUser, beforeUpdate, hch, hashPassword, applyFields, h, htr]
  · intro upd v h heq
    have hch : passwordChanged upd user = false := by
      simp only [passwordChanged, h]
      rw [heq]
      simp
    simp only [updateUser, beforeUpdate, hch, Bool.false_eq_true, if_false, applyFields, h]
    exact heq

/-- Witness for C4 at a concrete user: creation hashes the plaintext, and a
display-name-only update leaves the stored hash untouched. -/
theorem C4_witness :
    (beforeCreate 42 { username := "alice", email := "a@b.c",
                       password := some (.raw "Password123?"), displayName := none,
                       role := "user" }).password =
      some (.bhash 42 (.raw "Password123?")) ∧
    (updateUser 43 { password := none, displayName := some "Alice A.", email := none }
        { username := "alice", email := "a@b.c",
          password := some (.bhash 42 (.raw "Password123?")),
          displayName := some "alice", role := "user" }).password =
      some (.bhash 42 (.raw "Password123?")) :=
  ⟨((C4_hash_only_on_password_write 42
      { username := "alice", email := "a@b.c",
        password := some (.raw "Password123?"), displayName := none,
        role := "user" }).1 "Password123?" rfl (by decide)).1,
   (C4_hash_only_on_password_write 43
      { username := "alice", email := "a@b.c",
        password := some (.bhash 42 (.raw "Password123?")),
        displayName := some "alice", role := "user" }).2.1
      { password := none, displayName := some "Alice A.", email := none } rfl⟩

/-- A user record with no password value. -/
def userNoPw : UserRecord :=
  { username := "bob", email := "b@c.d", password := none,
    displayName := some "Bob", role := "user" }

/-- A user record whose password field holds the empty string. -/
def userEmptyPw : UserRecord :=
  { username := "bob", email := "b@c.d", password := some (.raw ""),
    displayName := some "Bob", role := "user" }

/-- Counterexample to claim C9: on an absent or empty plaintext the hasher
does not fail with any InvalidInput error — the `if (user.password)` guard
makes it return normally with the record unchanged (the function has no
failure path at all). -/
theorem C9_counterexample :
    hashPassword 0 userNoPw = userNoPw ∧ hashPassword 0 userEmptyPw = userEmptyPw := by
  constructor
  · rfl
  · rfl

/-- Claim C9 (amended): the hasher silently skips hashing when the plaintext
is empty or absent, leaving the record unchanged and raising no error; for
any truthy (non-empty) password value the hash is always produced. -/
theorem C9_skip_empty_hash_nonempty (salt : Nat) (user : UserRecord) :
    (user.password = none → hashPassword salt user = user) ∧
    (user.password = some (.raw "") → hashPassword salt user = user) ∧
    (∀ v : PwVal, user.password = some v → truthyPw (some v) = true →
      (hashPassword salt user).password = some (.bhash salt v)) := by
  refine ⟨?_, ?_, ?_⟩
  · intro h
    simp [hashPassword, truthyPw, h]
  · intro h
    simp [hashPassword, truthyPw, h]
  · intro v h htr
    simp [hashPassword, h, htr]

/-- Witness for C9: the empty-password record passes through unchanged and a
non-empty plaintext is hashed. -/
theorem C9_witness :
    hashPassword 7 userEmptyPw = userEmptyPw ∧
    (hashPassword 7 { username := "bob", email := "b@c.d",
                      password := some (.raw "Secret123?"), displayName := some "Bob",
                      role := "user" }).password = some (.bhash 7 (.raw "Secret123?")) :=
  ⟨(C9_skip_empty_hash_nonempty 7 userEmptyPw).2.1 rfl,
   (C9_skip_empty_hash_nonempty 7
      { username := "bob", email := "b@c.d",
        password := some (.raw "Secret123?"), displayName := some "Bob",
        role := "user" }).2.2 (.raw "Secret123?") rfl (by decide)⟩

/-- Counterexample to claim C8: an authenticated admin identity firing six
rapid failed requests at the throttled login endpoint is blocked on the
sixth — `skipRateLimit` would exempt it, but no limiter is constructed with
a `skip` option, so the admin exemption never takes effect. -/
theorem C8_counterexample :
    skipRateLimit adminLoginReq = true ∧
    (runLimiter authConfig
        (List.replicate 6 (0, adminLoginReq, false)) []).1 =
      [none, none, none, none, none, some authConfig.message] := by
  constructor
  · rfl
  · rfl

/-- Claim C8 (amended): `skipRateLimit` returns true for every admin
identity and for the allow-list paths, but none of the three limiter configs
wires it (or any `skip`) in, so the limiters throttle purely by their
windowed per-key counter: any client — admin identities included — whose
in-window hit count exceeds `max` is blocked with the configured message
(code RATE_LIMIT_EXCEEDED for the general policy) and passes again once the
window has elapsed. -/
theorem C8_admin_exemption_not_wired :
    (∀ (ip path em : String) (uid : Nat),
      skipRateLimit { ip := ip, path := path,
                      user := some { id := uid, email := em, role := "admin" } } = true) ∧
    (∀ (ip : String) (u : Option AuthUser),
      skipRateLimit { ip := ip, path := "/api/health", user := u } = true ∧
      skipRateLimit { ip := ip, path := "/api/docs", user := u } = true) ∧
    (generalConfig.skip.isNone = true ∧ authConfig.skip.isNone = true ∧
      passwordResetConfig.skip.isNone = true) ∧
    generalConfig.message.code = "RATE_LIMIT_EXCEEDED" ∧
    (∀ (req : RLRequest) (respOk : Bool) (now w : Nat),
      now < w + generalConfig.windowMs →
      (limiterStep generalConfig now req respOk
          [{ key := req.ip, windowStart := w, hits := 100 }]).1 =
        some generalConfig.message) ∧
    (∀ (req : RLRequest) (respOk : Bool) (now w : Nat),
      w + generalConfig.windowMs ≤ now →
      (limiterStep generalConfig now req respOk
          [{ key := req.ip, windowStart := w, hits := 100 }]).1 = none) := by
  refine ⟨?_, ?_, ⟨rfl, rfl, rfl⟩, rfl, ?_, ?_⟩
  · intro ip path em uid
    rfl
  · intro ip u
    cases u with
    | none => exact ⟨by simp [skipRateLimit], by simp [skipRateLimit]⟩
    | some u0 => exact ⟨by simp [skipRateLimit], by simp [skipRateLimit]⟩
  · intro req respOk now w h
    have h9 : ¬ (w + 900000 ≤ now) := by
      simp only [generalConfig] at h
      omega
    simp [limiterStep, rlKey, findEntry, generalConfig, h9]
  · intro req respOk now w h
    have h9 : w + 900000 ≤ now := by
      simpa [generalConfig] using h
    simp [limiterStep, rlKey, findEntry, generalConfig, h9]

/-- Witness for C8: with 100 hits already in the window, even an admin
request through the general limiter is blocked; after the window elapses the
same request passes. -/
theorem C8_witness :
    (limiterStep generalConfig 1 adminLoginReq true
        [{ key := adminLoginReq.ip, windowStart := 0, hits := 100 }]).1 =
      some generalConfig.message ∧
    (limiterStep generalConfig 900000 adminLoginReq true
        [{ key := adminLoginReq.ip, windowStart := 0, hits := 100 }]).1 = none :=
  ⟨C8_admin_exemption_not_wired.2.2.2.2.1 adminLoginReq true 1 0 (by decide),
   C8_admin_exemption_not_wired.2.2.2.2.2 adminLoginReq true 900000 0 (by decide)⟩

end TelfordAuth
